import Mathlib

/-!
# IoT Hub HTTP Translation Stage — verification development

A shallow embedding of the operation-translation layer of the azure-iot-device
pipeline: the `IoTHubHTTPTranslationStage`, which converts domain operations
(Method Invoke, Get Storage Info, Notify Blob Upload Status) into
`HTTPRequestAndResponseOperation` transport operations and translates the
transport outcome (error / status code / response body) back onto the original
operation.

The stage implementation itself is not part of the sources at hand (only its
test suite is), so the stage behavior is modelled from the specification
document, faithful to its words; the test suite constrains the concrete wire
formats (JSON separators, header names, body shapes) and the model matches it.
-/

/-- Left brace character (written via its code point). -/
def lbrace : Char := Char.ofNat 123

/-- Right brace character (written via its code point). -/
def rbrace : Char := Char.ofNat 125

/-- JSON values: the data interchanged in request/response bodies.
Numbers are modelled as integers (all numbers appearing in this layer's
payloads are integers: status codes and user parameters in the tests). -/
inductive Json where
  | null
  | bool (b : Bool)
  | num (n : Int)
  | str (s : String)
  | arr (elems : List Json)
  | obj (members : List (String × Json))

/-- Escape a string for inclusion in a JSON document (quote and backslash;
the payloads this layer handles contain no control characters). -/
def escapeJsonString (s : String) : String :=
  s.toList.foldl
    (fun acc c =>
      if c = Char.ofNat 34 then acc ++ "\\\""
      else if c = Char.ofNat 92 then acc ++ "\\\\"
      else acc.push c) ""

mutual
/-- JSON serialization matching Python json.dumps default separators
(comma-space between items, colon-space after keys). -/
def Json.dumps : Json → String
  | .null => "null"
  | .bool true => "true"
  | .bool false => "false"
  | .num n => toString n
  | .str s => "\"" ++ escapeJsonString s ++ "\""
  | .arr es => "[" ++ Json.dumpsList es ++ "]"
  | .obj ms => "\x7b" ++ Json.dumpsMembers ms ++ "\x7d"
def Json.dumpsList : List Json → String
  | [] => ""
  | [e] => Json.dumps e
  | e :: es => Json.dumps e ++ ", " ++ Json.dumpsList es
def Json.dumpsMembers : List (String × Json) → String
  | [] => ""
  | [(k, v)] => "\"" ++ escapeJsonString k ++ "\": " ++ Json.dumps v
  | (k, v) :: ms =>
      "\"" ++ escapeJsonString k ++ "\": " ++ Json.dumps v ++ ", " ++ Json.dumpsMembers ms
end

/-- Whitespace recognized by the JSON lexer. -/
def isJsonWs (c : Char) : Bool :=
  c = ' ' || c = Char.ofNat 10 || c = Char.ofNat 9 || c = Char.ofNat 13

/-- Drop leading JSON whitespace. -/
def dropWs : List Char → List Char
  | c :: cs => if isJsonWs c then dropWs cs else c :: cs
  | [] => []

/-- Undo a single-character JSON escape. -/
def unescapeChar (c : Char) : Char :=
  if c = 'n' then Char.ofNat 10
  else if c = 't' then Char.ofNat 9
  else if c = 'r' then Char.ofNat 13
  else c

/-- Parse the remainder of a JSON string literal (after the opening quote),
returning the string contents and the rest of the input. -/
def scanStringRest : List Char → Option (String × List Char)
  | [] => none
  | c :: cs =>
    if c = Char.ofNat 34 then some ("", cs)
    else if c = Char.ofNat 92 then
      match cs with
      | [] => none
      | d :: cs2 =>
        match scanStringRest cs2 with
        | some (s, r) => some (String.singleton (unescapeChar d) ++ s, r)
        | none => none
    else
      match scanStringRest cs with
      | some (s, r) => some (String.singleton c ++ s, r)
      | none => none

/-- Numeric value of a digit run. -/
def digitsToNat (ds : List Char) : Nat :=
  ds.foldl (fun acc c => acc * 10 + (c.toNat - 48)) 0

/-- What the recursive-descent JSON scanner is currently parsing: a value,
the members of an object (after the opening brace), or the elements of an
array (after the opening bracket). -/
inductive ScanMode where
  | value
  | members
  | elems

/-- Fueled recursive-descent JSON parser (fuel bounds nesting depth).
In members and elems modes it consumes up to and including the closing
delimiter and returns the object or array parsed so far. -/
def scan : Nat → ScanMode → List Char → Option (Json × List Char)
  | 0, _, _ => none
  | fuel + 1, .value, input =>
    (match dropWs input with
    | [] => none
    | c :: rest =>
      if c = Char.ofNat 34 then
        match scanStringRest rest with
        | some (s, r) => some (.str s, r)
        | none => none
      else if c = lbrace then scan fuel .members rest
      else if c = '[' then scan fuel .elems rest
      else if c = 't' then
        match rest with
        | 'r' :: 'u' :: 'e' :: r => some (.bool true, r)
        | _ => none
      else if c = 'f' then
        match rest with
        | 'a' :: 'l' :: 's' :: 'e' :: r => some (.bool false, r)
        | _ => none
      else if c = 'n' then
        match rest with
        | 'u' :: 'l' :: 'l' :: r => some (.null, r)
        | _ => none
      else if c = '-' then
        match rest.takeWhile Char.isDigit with
        | [] => none
        | ds => some (.num (-(digitsToNat ds : Int)), rest.dropWhile Char.isDigit)
      else if c.isDigit then
        some (.num (digitsToNat ((c :: rest).takeWhile Char.isDigit)),
          (c :: rest).dropWhile Char.isDigit)
      else none)
  | fuel + 1, .members, input =>
    (match dropWs input with
    | [] => none
    | c :: rest =>
      if c = rbrace then some (.obj [], rest)
      else if c = Char.ofNat 34 then
        match scanStringRest rest with
        | some (k, r1) =>
          (match dropWs r1 with
          | ':' :: r2 =>
            (match scan fuel .value r2 with
            | some (v, r3) =>
              (match dropWs r3 with
              | ',' :: r4 =>
                (match scan fuel .members r4 with
                | some (.obj ms, r5) => some (.obj ((k, v) :: ms), r5)
                | _ => none)
              | c5 :: r4 =>
                if c5 = rbrace then some (.obj [(k, v)], r4) else none
              | [] => none)
            | none => none)
          | _ => none)
        | none => none
      else none)
  | fuel + 1, .elems, input =>
    (match dropWs input with
    | [] => none
    | c :: rest =>
      if c = ']' then some (.arr [], rest)
      else
        match scan fuel .value (c :: rest) with
        | some (v, r1) =>
          (match dropWs r1 with
          | ',' :: r2 =>
            (match scan fuel .elems r2 with
            | some (.arr es, r3) => some (.arr (v :: es), r3)
            | _ => none)
          | ']' :: r2 => some (.arr [v], r2)
          | _ => none)
        | none => none)

/-- JSON deserialization (Python json.loads): parse a complete document,
requiring only whitespace to remain. -/
def json_loads (s : String) : Option Json :=
  let cs := s.toList
  match scan (cs.length + 1) .value cs with
  | some (j, r) => if dropWs r = [] then some j else none
  | none => none

/-- UTF-8 encoding of a single character, as a list of byte values. -/
def charUtf8Bytes (c : Char) : List Nat :=
  let n := c.toNat
  if n < 128 then [n]
  else if n < 2048 then [192 + n / 64, 128 + n % 64]
  else if n < 65536 then [224 + n / 4096, 128 + (n / 64) % 64, 128 + n % 64]
  else [240 + n / 262144, 128 + (n / 4096) % 64, 128 + (n / 64) % 64, 128 + n % 64]

/-- UTF-8 encoding of a string, as a list of byte values. -/
def strUtf8Bytes (s : String) : List Nat :=
  s.toList.foldr (fun c acc => charUtf8Bytes c ++ acc) []

/-- Byte length of a string's UTF-8 encoding. -/
def utf8Len (s : String) : Nat := (strUtf8Bytes s).length

/-- Bytes never percent-encoded by Python urllib.parse.quote_plus:
ASCII alphanumerics and minus, period, underscore, tilde. -/
def isUrlSafeByte (b : Nat) : Bool :=
  decide ((48 ≤ b ∧ b ≤ 57) ∨ (65 ≤ b ∧ b ≤ 90) ∨ (97 ≤ b ∧ b ≤ 122) ∨
    b = 45 ∨ b = 46 ∨ b = 95 ∨ b = 126)

/-- Uppercase hexadecimal digit for a value below 16. -/
def hexDigitChar (n : Nat) : Char :=
  if n < 10 then Char.ofNat (48 + n) else Char.ofNat (55 + n)

/-- Percent-encode one byte as urllib.parse.quote_plus does: space becomes
plus, safe bytes pass through, all others become percent hex-hex. -/
def quotePlusByte (b : Nat) : String :=
  if b = 32 then "+"
  else if isUrlSafeByte b then String.singleton (Char.ofNat b)
  else "%" ++ String.singleton (hexDigitChar (b / 16)) ++ String.singleton (hexDigitChar (b % 16))

/-- Python urllib.parse.quote_plus with default safe set: percent-encode the
UTF-8 bytes of the string, mapping space to plus. -/
def quotePlus (s : String) : String :=
  (strUtf8Bytes s).foldl (fun acc b => acc ++ quotePlusByte b) ""

example : Json.dumps (.obj [("blobName", .str "fake_blob_name")]) =
    "\x7b\"blobName\": \"fake_blob_name\"\x7d" := by rfl

example : json_loads "\x7b\"key\": \"val\"\x7d" = some (.obj [("key", .str "val")]) := by rfl

example : json_loads "" = none := by rfl

example : quotePlus "My/Custom?User+Agent" = "My%2FCustom%3FUser%2BAgent" := by rfl

/-- Errors that can appear on an operation's completion. A distinguished
constructor models the stage-synthesized ServiceError (non-2xx status) and
the translation (JSON parse) failure; `transportError` stands for the open
class of arbitrary error objects produced by lower stages, identified by an
opaque-to-this-stage tag so that error identity is expressible. -/
inductive Err where
  | serviceError (status_code : Nat) (response_body : String)
  | translationError (response_body : String)
  | transportError (tag : Nat)
deriving DecidableEq

/-- A dynamically-typed Python configuration value, as far as this layer
observes one: the custom product-info setting may be a string or any other
object; the stage only ever applies str() to it. -/
inductive PyVal where
  | str (s : String)
  | int (n : Int)
  | bool (b : Bool)
deriving DecidableEq

/-- Python str() on the values `PyVal` covers. -/
def pyStr : PyVal → String
  | .str s => s
  | .int n => toString n
  | .bool b => if b then "True" else "False"

/-- Modelled from the spec: the fixed package API-version constant
(pkg_constant.IOTHUB_API_VERSION), a single constant for the whole client. -/
def IOTHUB_API_VERSION : String := "2019-10-01"

/-- Modelled from the spec: the fixed product identifier string returned by
user_agent.get_iothub_user_agent(). -/
def get_iothub_user_agent : String := "azure-iot-device/2.12.0(lean)"

/-- Pipeline configuration (config.IoTHubPipelineConfig) as read by the
translation stage: hostnames, identity, and the custom product-info value. -/
structure IoTHubPipelineConfig where
  hostname : String
  gateway_hostname : String
  device_id : String
  module_id : Option String
  product_info : PyVal

/-- Modelled from the spec: the pure path-building helpers of
http_path_iothub are external collaborators; the stage only supplies their
arguments. They are abstracted as an arbitrary record of functions (the test
suite likewise mocks them). -/
structure PathBuilder where
  get_method_invoke_path : String → Option String → String
  get_storage_info_for_blob_path : String → String
  get_notify_blob_upload_status_path : String → String

/-- Domain operation pipeline_ops_iothub_http.MethodInvokeOperation. -/
structure MethodInvokeOperation where
  target_device_id : String
  target_module_id : Option String
  method_params : Json
  method_response : Option Json := none
  completed : Bool := false
  error : Option Err := none

/-- Domain operation pipeline_ops_iothub_http.GetStorageInfoOperation. -/
structure GetStorageInfoOperation where
  blob_name : String
  storage_info : Option Json := none
  completed : Bool := false
  error : Option Err := none

/-- Domain operation pipeline_ops_iothub_http.NotifyBlobUploadStatusOperation;
its constructor stores the caller-supplied status code as
request_status_code, distinct from any HTTP response status code. -/
structure NotifyBlobUploadStatusOperation where
  correlation_id : String
  is_success : Bool
  request_status_code : Int
  status_description : String
  completed : Bool := false
  error : Option Err := none

/-- Transport operation pipeline_ops_http.HTTPRequestAndResponseOperation:
the wire-facing request fields set at construction, and the response fields
(status_code, response_body) plus completion state filled in by the lower
transport stage. -/
structure HTTPRequestAndResponseOperation where
  method : String
  path : String
  query_params : String
  headers : List (String × String)
  body : String
  status_code : Nat := 0
  response_body : String := ""
  completed : Bool := false
  error : Option Err := none

/-- Header lookup in a header mapping (keys are unique in every mapping the
stage constructs). -/
def getHeader (hs : List (String × String)) (k : String) : Option String :=
  (hs.find? (fun p => p.1 = k)).map (fun p => p.2)

/-- User-Agent header value: percent-escaped concatenation of the fixed
product identifier and the stringified custom product-info value. -/
def userAgentHeaderValue (cfg : IoTHubPipelineConfig) : String :=
  quotePlus (get_iothub_user_agent ++ pyStr cfg.product_info)

/-- Modelled from the spec: construction of the transport operation for a
Method Invoke request (path from target ids; query api-version; Host =
gateway hostname; x-ms-edge-moduleId = "device/module" from the configured
identity when a module id is configured, omitted otherwise; body = the raw
method parameters, JSON-encoded). -/
def methodInvokeRequest (pb : PathBuilder) (cfg : IoTHubPipelineConfig)
    (op : MethodInvokeOperation) : HTTPRequestAndResponseOperation :=
  let body := op.method_params.dumps
  { method := "POST"
    path := pb.get_method_invoke_path op.target_device_id op.target_module_id
    query_params := "api-version=" ++ IOTHUB_API_VERSION
    headers :=
      [("Host", cfg.gateway_hostname),
       ("Content-Type", "application/json"),
       ("Content-Length", toString (utf8Len body)),
       ("User-Agent", userAgentHeaderValue cfg)] ++
      (match cfg.module_id with
       | some m => [("x-ms-edge-moduleId", cfg.device_id ++ "/" ++ m)]
       | none => [])
    body := body }

/-- Modelled from the spec: construction of the transport operation for a
Get Storage Info request (path from the configured device id; Host =
hostname; Accept application/json; body = an object with the single field
blobName). -/
def getStorageInfoRequest (pb : PathBuilder) (cfg : IoTHubPipelineConfig)
    (op : GetStorageInfoOperation) : HTTPRequestAndResponseOperation :=
  let body := Json.dumps (.obj [("blobName", .str op.blob_name)])
  { method := "POST"
    path := pb.get_storage_info_for_blob_path cfg.device_id
    query_params := "api-version=" ++ IOTHUB_API_VERSION
    headers :=
      [("Host", cfg.hostname),
       ("Accept", "application/json"),
       ("Content-Type", "application/json"),
       ("Content-Length", toString (utf8Len body)),
       ("User-Agent", userAgentHeaderValue cfg)]
    body := body }

/-- Modelled from the spec: construction of the transport operation for a
Notify Blob Upload Status request (path from the configured device id; Host
= hostname; Content-Type with charset; body = an object with exactly the
fields correlationId, isSuccess, statusCode, statusDescription, where
statusCode is the operation's request status code). -/
def notifyBlobUploadStatusRequest (pb : PathBuilder) (cfg : IoTHubPipelineConfig)
    (op : NotifyBlobUploadStatusOperation) : HTTPRequestAndResponseOperation :=
  let body := Json.dumps (.obj
    [("correlationId", .str op.correlation_id),
     ("isSuccess", .bool op.is_success),
     ("statusCode", .num op.request_status_code),
     ("statusDescription", .str op.status_description)])
  { method := "POST"
    path := pb.get_notify_blob_upload_status_path cfg.device_id
    query_params := "api-version=" ++ IOTHUB_API_VERSION
    headers :=
      [("Host", cfg.hostname),
       ("Content-Type", "application/json; charset=utf-8"),
       ("Content-Length", toString (utf8Len body)),
       ("User-Agent", userAgentHeaderValue cfg)]
    body := body }

/-- An operation flowing into the translation stage: one of the three
recognized domain kinds, or any other operation kind (of arbitrary payload
type alpha) that the stage does not understand. -/
inductive PipelineOp (α : Type) where
  | methodInvoke (op : MethodInvokeOperation)
  | getStorageInfo (op : GetStorageInfoOperation)
  | notifyBlobUploadStatus (op : NotifyBlobUploadStatusOperation)
  | other (op : α)

/-- What a single run_op call hands to send_op_down: either a freshly
synthesized transport operation or the incoming operation passed through. -/
inductive SentDown (α : Type) where
  | http (new_op : HTTPRequestAndResponseOperation)
  | passthrough (op : PipelineOp α)

namespace IoTHubHTTPTranslationStage

/-- Modelled from the spec: IoTHubHTTPTranslationStage.run_op dispatches on
the operation kind, synthesizes exactly one transport operation for each of
the three recognized kinds, and forwards every other kind down unmodified. -/
def run_op {α : Type} (pb : PathBuilder) (cfg : IoTHubPipelineConfig) :
    PipelineOp α → SentDown α
  | .methodInvoke op => .http (methodInvokeRequest pb cfg op)
  | .getStorageInfo op => .http (getStorageInfoRequest pb cfg op)
  | .notifyBlobUploadStatus op => .http (notifyBlobUploadStatusRequest pb cfg op)
  | .other op => .passthrough (.other op)

end IoTHubHTTPTranslationStage

/-- The recognized kind of the original operation a completion interceptor
was attached for. -/
inductive OpKind where
  | methodInvoke
  | getStorageInfo
  | notifyBlobUploadStatus

/-- Success classification of an HTTP status code: the closed range 200-299. -/
def isSuccessStatus (c : Nat) : Bool := decide (200 ≤ c ∧ c ≤ 299)

/-- Outcome the interceptor applies to the original operation: a completion
error (or none) and, for kinds with a result field, the deserialized
response to assign to it. -/
structure TranslatedOutcome where
  error : Option Err
  response : Option Json

/-- Modelled from the spec: the completion interceptor attached to the
transport operation (the on_request_response handler). Reading the completed
transport operation: a transport error passes through unmodified; otherwise
a success status (200-299) deserializes a present, non-empty response body
as JSON for the kinds that carry a result field (a malformed body is a
translation failure), and a non-success status synthesizes a ServiceError
carrying the status code and body context. -/
def on_request_response (kind : OpKind) (op_response : HTTPRequestAndResponseOperation) :
    TranslatedOutcome :=
  match op_response.error with
  | some e => { error := some e, response := none }
  | none =>
    if isSuccessStatus op_response.status_code then
      match kind with
      | .notifyBlobUploadStatus => { error := none, response := none }
      | _ =>
        if op_response.response_body = "" then { error := none, response := none }
        else
          match json_loads op_response.response_body with
          | some j => { error := none, response := some j }
          | none =>
            { error := some (.translationError op_response.response_body), response := none }
    else
      { error := some (.serviceError op_response.status_code op_response.response_body),
        response := none }

/-- Transport-op completion (Operation.complete): mark completed and record
the error-or-none it was completed with. -/
def HTTPRequestAndResponseOperation.complete (op : HTTPRequestAndResponseOperation)
    (err : Option Err) : HTTPRequestAndResponseOperation :=
  { op with completed := true, error := err }

/-- Apply a translated outcome to the original Method Invoke operation:
complete it with the outcome's error and assign method_response when a
deserialized response is present. -/
def MethodInvokeOperation.applyOutcome (op : MethodInvokeOperation)
    (c : TranslatedOutcome) : MethodInvokeOperation :=
  { op with
    completed := true
    error := c.error
    method_response :=
      (match c.response with | some j => some j | none => op.method_response) }

/-- Apply a translated outcome to the original Get Storage Info operation:
complete it with the outcome's error and assign storage_info when a
deserialized response is present. -/
def GetStorageInfoOperation.applyOutcome (op : GetStorageInfoOperation)
    (c : TranslatedOutcome) : GetStorageInfoOperation :=
  { op with
    completed := true
    error := c.error
    storage_info :=
      (match c.response with | some j => some j | none => op.storage_info) }

/-- Apply a translated outcome to the original Notify Blob Upload Status
operation: complete it with the outcome's error (this kind has no result
field). -/
def NotifyBlobUploadStatusOperation.applyOutcome (op : NotifyBlobUploadStatusOperation)
    (c : TranslatedOutcome) : NotifyBlobUploadStatusOperation :=
  { op with completed := true, error := c.error }

/-- End-to-end completion flow for Method Invoke: the transport operation
(whose response fields were set by the transport stage) is completed with
err, the interceptor fires on it, and the original operation is completed
with the translated outcome. Returns the final states of (original,
transport) operations. -/
def completeMethodInvokeFlow (orig : MethodInvokeOperation)
    (new_op : HTTPRequestAndResponseOperation) (err : Option Err) :
    MethodInvokeOperation × HTTPRequestAndResponseOperation :=
  let completed_new := new_op.complete err
  (orig.applyOutcome (on_request_response .methodInvoke completed_new), completed_new)

/-- End-to-end completion flow for Get Storage Info (see
completeMethodInvokeFlow). -/
def completeGetStorageInfoFlow (orig : GetStorageInfoOperation)
    (new_op : HTTPRequestAndResponseOperation) (err : Option Err) :
    GetStorageInfoOperation × HTTPRequestAndResponseOperation :=
  let completed_new := new_op.complete err
  (orig.applyOutcome (on_request_response .getStorageInfo completed_new), completed_new)

/-- End-to-end completion flow for Notify Blob Upload Status (see
completeMethodInvokeFlow). -/
def completeNotifyBlobUploadStatusFlow (orig : NotifyBlobUploadStatusOperation)
    (new_op : HTTPRequestAndResponseOperation) (err : Option Err) :
    NotifyBlobUploadStatusOperation × HTTPRequestAndResponseOperation :=
  let completed_new := new_op.complete err
  (orig.applyOutcome (on_request_response .notifyBlobUploadStatus completed_new), completed_new)

/-- Concrete path-building collaborator used for witnesses (any record of
functions works; the stage treats it abstractly). -/
def testPathBuilder : PathBuilder :=
  { get_method_invoke_path := fun d m =>
      "/twins/" ++ d ++ (match m with | some mm => "/modules/" ++ mm | none => "") ++
        "/methods"
    get_storage_info_for_blob_path := fun d => "/devices/" ++ d ++ "/files"
    get_notify_blob_upload_status_path := fun d => "/devices/" ++ d ++ "/files/notifications" }

/-- Device-scoped pipeline configuration mirroring the test fixtures. -/
def deviceConfig : IoTHubPipelineConfig :=
  { hostname := "http://my.hostname"
    gateway_hostname := ""
    device_id := "my_device"
    module_id := none
    product_info := .str "" }

/-- Module-scoped pipeline configuration mirroring the test fixtures. -/
def moduleConfig : IoTHubPipelineConfig :=
  { hostname := "http://my.hostname"
    gateway_hostname := "http://my.gateway.hostname"
    device_id := "my_device"
    module_id := some "my_module"
    product_info := .str "" }

/-- Sample Method Invoke operation mirroring the test fixture. -/
def sampleMethodInvokeOp : MethodInvokeOperation :=
  { target_device_id := "fake_target_device_id"
    target_module_id := some "fake_target_module_id"
    method_params := .obj [("arg1", .str "val"), ("arg2", .num 2), ("arg3", .bool true)] }

/-- Sample Get Storage Info operation mirroring the test fixture. -/
def sampleGetStorageInfoOp : GetStorageInfoOperation :=
  { blob_name := "fake_blob_name" }

/-- Sample Notify Blob Upload Status operation mirroring the test fixture. -/
def sampleNotifyOp : NotifyBlobUploadStatusOperation :=
  { correlation_id := "fake_correlation_id"
    is_success := true
    request_status_code := 203
    status_description := "fake_description" }

/-- A transport operation as resolved by the transport stage with success
status 200 and a one-field JSON object response. -/
def roundtripResponseOp : HTTPRequestAndResponseOperation :=
  { getStorageInfoRequest testPathBuilder deviceConfig sampleGetStorageInfoOp with
    status_code := 200
    response_body := "\x7b\"key\": \"val\"\x7d" }

/-- A transport operation resolved with success status 200 but a response
body that is not valid JSON. -/
def malformedSuccessResponseOp : HTTPRequestAndResponseOperation :=
  { getStorageInfoRequest testPathBuilder deviceConfig sampleGetStorageInfoOp with
    status_code := 200
    response_body := "\x7b" }

/-- A transport operation resolved with non-success status 300 and no body. -/
def badStatusResponseOp : HTTPRequestAndResponseOperation :=
  { notifyBlobUploadStatusRequest testPathBuilder deviceConfig sampleNotifyOp with
    status_code := 300 }

/-- C1: if the synthesized transport operation completes with no error, a
success status code (200-299) and a non-empty response body that parses as a
JSON object, then the original operation completes with no error and its
kind-specific result field (method_response for Method Invoke, storage_info
for Get Storage Info) equals the parsed response body; Notify Blob Upload
Status has no result field (its operation type carries none). -/
theorem success_response_sets_result_field
    (mo : MethodInvokeOperation) (so : GetStorageInfoOperation)
    (nop : HTTPRequestAndResponseOperation) (fs : List (String × Json))
    (hsc : isSuccessStatus nop.status_code = true)
    (hne : nop.response_body ≠ "")
    (hparse : json_loads nop.response_body = some (Json.obj fs)) :
    (completeMethodInvokeFlow mo nop none).1.error = none ∧
    (completeMethodInvokeFlow mo nop none).1.method_response = some (Json.obj fs) ∧
    (completeGetStorageInfoFlow so nop none).1.error = none ∧
    (completeGetStorageInfoFlow so nop none).1.storage_info = some (Json.obj fs) := by
  simp [completeMethodInvokeFlow, completeGetStorageInfoFlow,
    HTTPRequestAndResponseOperation.complete, on_request_response, hsc, hne, hparse,
    MethodInvokeOperation.applyOutcome, GetStorageInfoOperation.applyOutcome]

/-- Witness for C1: the success round-trip at status 200 and response body
consisting of the single-field object key: val. -/
theorem success_response_sets_result_field_witness :
    (completeMethodInvokeFlow sampleMethodInvokeOp roundtripResponseOp none).1.method_response =
      some (Json.obj [("key", Json.str "val")]) ∧
    (completeGetStorageInfoFlow sampleGetStorageInfoOp roundtripResponseOp none).1.storage_info =
      some (Json.obj [("key", Json.str "val")]) :=
  ⟨(success_response_sets_result_field sampleMethodInvokeOp sampleGetStorageInfoOp
      roundtripResponseOp [("key", Json.str "val")] (by rfl) (by decide) (by rfl)).2.1,
   (success_response_sets_result_field sampleMethodInvokeOp sampleGetStorageInfoOp
      roundtripResponseOp [("key", Json.str "val")] (by rfl) (by decide) (by rfl)).2.2.2⟩

/-- C2 counterexample: at status code 200 (a success status) with a
response body that is not valid JSON, the original Get Storage Info
operation completes WITH an error (the spec's translation failure), so "the
original operation completes without error exactly when 200 <= status_code
<= 299" is false as universally stated. -/
theorem status_boundary_counterexample :
    isSuccessStatus malformedSuccessResponseOp.status_code = true ∧
    (completeGetStorageInfoFlow sampleGetStorageInfoOp malformedSuccessResponseOp none).1.error =
      some (Err.translationError "\x7b") := by
  exact ⟨rfl, rfl⟩

/-- C2 (amended): if the transport operation completes with no error, and
the response body is empty or parses as JSON (excluded only by the
malformed-body translation-failure path the spec prescribes), the original
operation completes without error exactly when 200 <= status_code <= 299;
200 and 299 are success, 199 and 300 are not; a non-success status yields a
ServiceError and leaves the result field unpopulated. -/
theorem status_code_boundary
    (mo : MethodInvokeOperation) (so : GetStorageInfoOperation)
    (no : NotifyBlobUploadStatusOperation) (nop : HTTPRequestAndResponseOperation)
    (hmo : mo.method_response = none) (hso : so.storage_info = none)
    (hbody : nop.response_body = "" ∨ ∃ j, json_loads nop.response_body = some j) :
    ((completeMethodInvokeFlow mo nop none).1.error = none ↔
      isSuccessStatus nop.status_code = true) ∧
    ((completeGetStorageInfoFlow so nop none).1.error = none ↔
      isSuccessStatus nop.status_code = true) ∧
    ((completeNotifyBlobUploadStatusFlow no nop none).1.error = none ↔
      isSuccessStatus nop.status_code = true) ∧
    (isSuccessStatus nop.status_code = false →
      (completeMethodInvokeFlow mo nop none).1.error =
        some (.serviceError nop.status_code nop.response_body) ∧
      (completeMethodInvokeFlow mo nop none).1.method_response = none ∧
      (completeGetStorageInfoFlow so nop none).1.error =
        some (.serviceError nop.status_code nop.response_body) ∧
      (completeGetStorageInfoFlow so nop none).1.storage_info = none ∧
      (completeNotifyBlobUploadStatusFlow no nop none).1.error =
        some (.serviceError nop.status_code nop.response_body)) ∧
    isSuccessStatus 200 = true ∧ isSuccessStatus 299 = true ∧
    isSuccessStatus 199 = false ∧ isSuccessStatus 300 = false := by
  by_cases hsc : isSuccessStatus nop.status_code = true
  · have herr : ∀ k, (on_request_response k (nop.complete none)).error = none := by
      intro k
      rcases hbody with h | ⟨j, h⟩
      · cases k <;>
          simp [on_request_response, HTTPRequestAndResponseOperation.complete, hsc, h]
      · have hne : nop.response_body ≠ "" := by
          intro h0
          rw [h0] at h
          rw [show json_loads "" = (none : Option Json) from rfl] at h
          exact Option.noConfusion h
        cases k <;>
          simp [on_request_response, HTTPRequestAndResponseOperation.complete, hsc, hne, h]
    refine ⟨?_, ?_, ?_, ?_, by decide, by decide, by decide, by decide⟩
    · simpa [completeMethodInvokeFlow, MethodInvokeOperation.applyOutcome, hsc] using
        herr OpKind.methodInvoke
    · simpa [completeGetStorageInfoFlow, GetStorageInfoOperation.applyOutcome, hsc] using
        herr OpKind.getStorageInfo
    · simpa [completeNotifyBlobUploadStatusFlow, NotifyBlobUploadStatusOperation.applyOutcome,
        hsc] using herr OpKind.notifyBlobUploadStatus
    · intro hf
      rw [hsc] at hf
      exact Bool.noConfusion hf
  · have hsc' : isSuccessStatus nop.status_code = false := by
      cases h : isSuccessStatus nop.status_code
      · rfl
      · exact absurd h hsc
    refine ⟨?_, ?_, ?_, ?_, by decide, by decide, by decide, by decide⟩
    · simp [completeMethodInvokeFlow, MethodInvokeOperation.applyOutcome, on_request_response,
        HTTPRequestAndResponseOperation.complete, hsc']
    · simp [completeGetStorageInfoFlow, GetStorageInfoOperation.applyOutcome, on_request_response,
        HTTPRequestAndResponseOperation.complete, hsc']
    · simp [completeNotifyBlobUploadStatusFlow, NotifyBlobUploadStatusOperation.applyOutcome,
        on_request_response, HTTPRequestAndResponseOperation.complete, hsc']
    · intro _
      refine ⟨?_, ?_, ?_, ?_, ?_⟩ <;>
        simp [completeMethodInvokeFlow, completeGetStorageInfoFlow,
          completeNotifyBlobUploadStatusFlow, MethodInvokeOperation.applyOutcome,
          GetStorageInfoOperation.applyOutcome, NotifyBlobUploadStatusOperation.applyOutcome,
          on_request_response, HTTPRequestAndResponseOperation.complete, hsc', hmo, hso]

/-- Witness for C2 (amended) at status 300 with empty response body: the
Method Invoke iff instantiated concretely. -/
theorem status_code_boundary_witness :
    ((completeMethodInvokeFlow sampleMethodInvokeOp badStatusResponseOp none).1.error = none ↔
      isSuccessStatus badStatusResponseOp.status_code = true) :=
  (status_code_boundary sampleMethodInvokeOp sampleGetStorageInfoOp sampleNotifyOp
    badStatusResponseOp rfl rfl (Or.inl rfl)).1

/-- C3: if the transport operation completes with any non-none error, the
original operation (of any recognized kind) completes with the very same
error value — never wrapped, translated or replaced — regardless of the
transport operation's status code or response body; the same error also
remains recorded on the transport operation itself. -/
theorem transport_error_passthrough
    (mo : MethodInvokeOperation) (so : GetStorageInfoOperation)
    (no : NotifyBlobUploadStatusOperation)
    (nop : HTTPRequestAndResponseOperation) (e : Err) :
    (completeMethodInvokeFlow mo nop (some e)).1.error = some e ∧
    (completeGetStorageInfoFlow so nop (some e)).1.error = some e ∧
    (completeNotifyBlobUploadStatusFlow no nop (some e)).1.error = some e ∧
    (completeMethodInvokeFlow mo nop (some e)).2.error = some e := by
  refine ⟨?_, ?_, ?_, rfl⟩ <;>
    simp [completeMethodInvokeFlow, completeGetStorageInfoFlow,
      completeNotifyBlobUploadStatusFlow, MethodInvokeOperation.applyOutcome,
      GetStorageInfoOperation.applyOutcome, NotifyBlobUploadStatusOperation.applyOutcome,
      on_request_response, HTTPRequestAndResponseOperation.complete]

/-- C4: for each of the three recognized operation kinds, run_op sends
exactly one operation down the pipeline (its result is the single
synthesized transport operation), that operation is an
HTTPRequestAndResponseOperation, its method is POST, and its query_params
string is exactly api-version= followed by the fixed package API-version
constant. -/
theorem run_op_sends_single_post_transport_op
    {α : Type} (pb : PathBuilder) (cfg : IoTHubPipelineConfig)
    (mo : MethodInvokeOperation) (so : GetStorageInfoOperation)
    (no : NotifyBlobUploadStatusOperation) :
    IoTHubHTTPTranslationStage.run_op pb cfg (PipelineOp.methodInvoke (α := α) mo) =
      SentDown.http (methodInvokeRequest pb cfg mo) ∧
    (methodInvokeRequest pb cfg mo).method = "POST" ∧
    (methodInvokeRequest pb cfg mo).query_params = "api-version=" ++ IOTHUB_API_VERSION ∧
    IoTHubHTTPTranslationStage.run_op pb cfg (PipelineOp.getStorageInfo (α := α) so) =
      SentDown.http (getStorageInfoRequest pb cfg so) ∧
    (getStorageInfoRequest pb cfg so).method = "POST" ∧
    (getStorageInfoRequest pb cfg so).query_params = "api-version=" ++ IOTHUB_API_VERSION ∧
    IoTHubHTTPTranslationStage.run_op pb cfg (PipelineOp.notifyBlobUploadStatus (α := α) no) =
      SentDown.http (notifyBlobUploadStatusRequest pb cfg no) ∧
    (notifyBlobUploadStatusRequest pb cfg no).method = "POST" ∧
    (notifyBlobUploadStatusRequest pb cfg no).query_params =
      "api-version=" ++ IOTHUB_API_VERSION :=
  ⟨rfl, rfl, rfl, rfl, rfl, rfl, rfl, rfl, rfl⟩

/-- C5: for every recognized operation kind and every payload and
configuration, the synthesized transport operation's Content-Length header
is the decimal string of the byte length of the serialized body. -/
theorem content_length_matches_body_byte_length
    (pb : PathBuilder) (cfg : IoTHubPipelineConfig)
    (mo : MethodInvokeOperation) (so : GetStorageInfoOperation)
    (no : NotifyBlobUploadStatusOperation) :
    getHeader (methodInvokeRequest pb cfg mo).headers "Content-Length" =
      some (toString (utf8Len (methodInvokeRequest pb cfg mo).body)) ∧
    getHeader (getStorageInfoRequest pb cfg so).headers "Content-Length" =
      some (toString (utf8Len (getStorageInfoRequest pb cfg so).body)) ∧
    getHeader (notifyBlobUploadStatusRequest pb cfg no).headers "Content-Length" =
      some (toString (utf8Len (notifyBlobUploadStatusRequest pb cfg no).body)) :=
  ⟨rfl, rfl, rfl⟩

/-- C6: for every configured custom product-info value (string or not) and
every recognized operation kind, the User-Agent header is the
percent-escaping of the fixed user-agent prefix concatenated with the
stringified product-info value; non-string values are stringified by str()
rather than rejected (pyStr and the stage are total), and reserved URL
characters in the value are escaped. -/
theorem user_agent_header_from_product_info
    (pb : PathBuilder) (cfg : IoTHubPipelineConfig)
    (mo : MethodInvokeOperation) (so : GetStorageInfoOperation)
    (no : NotifyBlobUploadStatusOperation) :
    getHeader (methodInvokeRequest pb cfg mo).headers "User-Agent" =
      some (quotePlus (get_iothub_user_agent ++ pyStr cfg.product_info)) ∧
    getHeader (getStorageInfoRequest pb cfg so).headers "User-Agent" =
      some (quotePlus (get_iothub_user_agent ++ pyStr cfg.product_info)) ∧
    getHeader (notifyBlobUploadStatusRequest pb cfg no).headers "User-Agent" =
      some (quotePlus (get_iothub_user_agent ++ pyStr cfg.product_info)) ∧
    pyStr (PyVal.int 12345) = "12345" ∧
    quotePlus (get_iothub_user_agent ++ pyStr (PyVal.int 12345)) =
      "azure-iot-device%2F2.12.0%28lean%2912345" ∧
    quotePlus (get_iothub_user_agent ++ pyStr (PyVal.str "My/Custom?User+Agent")) =
      "azure-iot-device%2F2.12.0%28lean%29My%2FCustom%3FUser%2BAgent" :=
  ⟨rfl, rfl, rfl, rfl, rfl, rfl⟩

/-- C7: for every Method Invoke operation, the Host header equals the
configured gateway hostname, and the x-ms-edge-moduleId header is present
with value device_id/module_id built from the configured identity (not the
operation's target ids, over which the statement quantifies) exactly when a
module id is configured, and absent otherwise. -/
theorem method_invoke_host_and_edge_module_headers
    (pb : PathBuilder) (cfg : IoTHubPipelineConfig) (mo : MethodInvokeOperation) :
    getHeader (methodInvokeRequest pb cfg mo).headers "Host" = some cfg.gateway_hostname ∧
    getHeader (methodInvokeRequest pb cfg mo).headers "x-ms-edge-moduleId" =
      cfg.module_id.map (fun m => cfg.device_id ++ "/" ++ m) := by
  cases h : cfg.module_id <;>
    simp [getHeader, methodInvokeRequest, List.find?, h]

/-- C8: the body of the transport operation synthesized for a Notify Blob
Upload Status operation is the JSON encoding of an object with exactly the
fields correlationId, isSuccess, statusCode, statusDescription, where
statusCode is the request status code the caller supplied on the notify
operation; the body is unaffected by whatever response status code the
transport operation later completes with. -/
theorem notify_body_shape_uses_request_status_code
    (pb : PathBuilder) (cfg : IoTHubPipelineConfig)
    (no : NotifyBlobUploadStatusOperation) (err : Option Err) :
    (notifyBlobUploadStatusRequest pb cfg no).body =
      Json.dumps (.obj
        [("correlationId", .str no.correlation_id),
         ("isSuccess", .bool no.is_success),
         ("statusCode", .num no.request_status_code),
         ("statusDescription", .str no.status_description)]) ∧
    (completeNotifyBlobUploadStatusFlow no (notifyBlobUploadStatusRequest pb cfg no) err).2.body =
      (notifyBlobUploadStatusRequest pb cfg no).body :=
  ⟨rfl, rfl⟩

/-- C9: an operation of any kind other than the three recognized domain
kinds is forwarded down via send_op_down unmodified (the very same
operation value), and run_op never synthesizes a transport operation
for it. -/
theorem unrecognized_op_forwarded_unmodified
    {α : Type} (pb : PathBuilder) (cfg : IoTHubPipelineConfig) (x : α) :
    IoTHubHTTPTranslationStage.run_op pb cfg (PipelineOp.other x) =
      SentDown.passthrough (PipelineOp.other x) ∧
    ∀ nop : HTTPRequestAndResponseOperation,
      IoTHubHTTPTranslationStage.run_op pb cfg (PipelineOp.other x) ≠ SentDown.http nop := by
  refine ⟨rfl, fun nop h => ?_⟩
  exact SentDown.noConfusion h

/-- C10: when the transport operation is completed with no transport error
and a non-success status code, the resulting ServiceError is attached only
to the original operation: the transport operation ends in the completed
state with its own error field still none, and its request and response
fields (status code, response body, body) are untouched by translation. -/
theorem bad_status_error_attached_only_to_original
    (mo : MethodInvokeOperation) (so : GetStorageInfoOperation)
    (no : NotifyBlobUploadStatusOperation) (nop : HTTPRequestAndResponseOperation)
    (h : isSuccessStatus nop.status_code = false) :
    (completeMethodInvokeFlow mo nop none).2.completed = true ∧
    (completeMethodInvokeFlow mo nop none).2.error = none ∧
    (completeMethodInvokeFlow mo nop none).2.status_code = nop.status_code ∧
    (completeMethodInvokeFlow mo nop none).2.response_body = nop.response_body ∧
    (completeMethodInvokeFlow mo nop none).2.body = nop.body ∧
    (completeMethodInvokeFlow mo nop none).1.error =
      some (.serviceError nop.status_code nop.response_body) ∧
    (completeGetStorageInfoFlow so nop none).2.error = none ∧
    (completeGetStorageInfoFlow so nop none).1.error =
      some (.serviceError nop.status_code nop.response_body) ∧
    (completeNotifyBlobUploadStatusFlow no nop none).2.error = none ∧
    (completeNotifyBlobUploadStatusFlow no nop none).1.error =
      some (.serviceError nop.status_code nop.response_body) := by
  refine ⟨rfl, rfl, rfl, rfl, rfl, ?_, rfl, ?_, rfl, ?_⟩ <;>
    simp [completeMethodInvokeFlow, completeGetStorageInfoFlow,
      completeNotifyBlobUploadStatusFlow, MethodInvokeOperation.applyOutcome,
      GetStorageInfoOperation.applyOutcome, NotifyBlobUploadStatusOperation.applyOutcome,
      on_request_response, HTTPRequestAndResponseOperation.complete, h]

/-- Witness for C10 at status code 300: the transport operation stays
error-free while the original Notify operation carries the ServiceError. -/
theorem bad_status_error_attached_only_to_original_witness :
    isSuccessStatus badStatusResponseOp.status_code = false ∧
    (completeNotifyBlobUploadStatusFlow sampleNotifyOp badStatusResponseOp none).2.error = none ∧
    (completeNotifyBlobUploadStatusFlow sampleNotifyOp badStatusResponseOp none).1.error =
      some (Err.serviceError 300 "") :=
  ⟨by decide,
   (bad_status_error_attached_only_to_original sampleMethodInvokeOp sampleGetStorageInfoOp
      sampleNotifyOp badStatusResponseOp (by decide)).2.2.2.2.2.2.2.2.1,
   (bad_status_error_attached_only_to_original sampleMethodInvokeOp sampleGetStorageInfoOp
      sampleNotifyOp badStatusResponseOp (by decide)).2.2.2.2.2.2.2.2.2⟩

/-- Witness for C9 at a concrete unrecognized operation payload. -/
theorem unrecognized_op_forwarded_unmodified_witness :
    IoTHubHTTPTranslationStage.run_op testPathBuilder deviceConfig
      (PipelineOp.other (42 : Nat)) = SentDown.passthrough (PipelineOp.other 42) ∧
    IoTHubHTTPTranslationStage.run_op testPathBuilder deviceConfig
      (PipelineOp.other (42 : Nat)) ≠ SentDown.http badStatusResponseOp :=
  ⟨(unrecognized_op_forwarded_unmodified testPathBuilder deviceConfig 42).1,
   (unrecognized_op_forwarded_unmodified testPathBuilder deviceConfig 42).2
     badStatusResponseOp⟩
